import Mathlib

/-!
# Verification of the EV Charging Optimizer backend (`src/main.py`)

This file shallowly embeds the Station Optimization Engine of the
repository's `src/main.py` and proves/refutes the specification claims
about it.

Modelling conventions:
* Python floats are modelled as rationals (`ℚ`); all arithmetic in the
  optimizer (`/ 60 * 60`, `round(_, n)`, comparisons) is exact at this
  precision.
* The geocoding provider (geopy `Nominatim`) and the geodesic distance
  routine (geopy `geodesic`) are external libraries, not repository code;
  they are taken as parameters (`provider`, `dist`) of the orchestrator,
  and the distance contract of spec §4.1 is additionally modelled over `ℝ`
  from the spec (see `haversine_km` below).
* `HTTPException` raises are modelled as `Except.error` with a typed error;
  an uncaught Python exception (`min` over an empty list) is modelled by
  the dedicated error value `OptimizeError.emptyCandidates`.
-/

/- The arithmetic on `ℚ` is `@[irreducible]` in Batteries, which blocks
`decide`/`rfl` evaluation of the model on concrete inputs; re-enable
unfolding (the kernel ignores reducibility hints anyway). -/
set_option allowUnsafeReducibility true
attribute [local semireducible] Rat.inv Rat.mul Rat.add Rat.sub

deriving instance DecidableEq for Except

namespace EVOpt

/-- A latitude/longitude pair, as the `{"lat": .., "lon": ..}` dicts of
`src/main.py` (`geocode_address`, `origin_coords`). -/
structure Coord where
  lat : ℚ
  lon : ℚ
deriving DecidableEq, Repr

/-- The `Station` pydantic model of `src/main.py` (fields relevant to the
optimizer; `id`, `price_per_kwh`, `availability`, `city` are carried along
by the code but never read by the optimization path). -/
structure Station where
  name : String
  latitude : ℚ
  longitude : ℚ
  charger_type : String
  power_kw : ℚ
deriving DecidableEq, Repr

/-- The `OptimizeRequest` pydantic model: origin query string,
`max_distance_km` (default 50), optional `preferred_charger`. -/
structure OptimizeRequest where
  origin : String
  max_distance_km : ℚ
  preferred_charger : Option String
deriving DecidableEq, Repr

/-- One entry of the `candidates` list of `OptimizeResponse`
(the summarized dict built in the response comprehension). -/
structure CandidateOut where
  name : String
  latitude : ℚ
  longitude : ℚ
  distance_km : ℚ
  charger_type : String
  power_kw : ℚ
deriving DecidableEq, Repr

/-- The `OptimizeResponse` pydantic model. `route_polyline` is the list of
`[lat, lon]` pairs; each pair is modelled as a `Coord`. -/
structure OptimizeResponse where
  origin : Coord
  best_station : Station
  distance_km : ℚ
  eta_minutes : ℚ
  route_polyline : List Coord
  candidates : List CandidateOut
deriving DecidableEq, Repr

/-- The failure outcomes of `optimize_route`:
`originNotFound` = `HTTPException(404, "Origin not found")`,
`noStationsForFilter` = `HTTPException(404, "No stations available for the
given filter")`, and `emptyCandidates` models the uncaught `ValueError`
Python's `min` would raise on an empty candidate list (no `raise` site in
the code corresponds to it; claim C9 shows it is unreachable). -/
inductive OptimizeError where
  | originNotFound
  | noStationsForFilter
  | emptyCandidates
deriving DecidableEq, Repr

/-- Outcome of one call to the external geocoding provider
(`geolocator.geocode`): a location, no match (`None`), or a raised
provider/transport exception. -/
inductive GeoOutcome where
  | found : Coord → GeoOutcome
  | noMatch : GeoOutcome
  | providerError : GeoOutcome
deriving DecidableEq, Repr

/-- The `geocode_address` helper of `src/main.py`: wraps the provider call, returning
`None` both when the provider finds nothing and when it raises
(`except Exception: return None`). -/
def geocode_address (provider : String → GeoOutcome) (query : String) :
    Option Coord :=
  match provider query with
  | .found c => some c
  | .noMatch => none
  | .providerError => none

/-- The coordinate dict `{"lat": s.latitude, "lon": s.longitude}` built for
a station in `optimize_route`. -/
def stationCoord (s : Station) : Coord :=
  ⟨s.latitude, s.longitude⟩

/-- Python's `str.lower()` on the charger-type strings. This is the same
ASCII `A-Z → a-z` character mapping as Lean's `String.toLower`, written
over the character list (Lean's version iterates by byte position, which
the kernel cannot evaluate). -/
def strLower (s : String) : String :=
  ⟨s.data.map Char.toLower⟩

/-- The predicate of the charger filter list comprehension:
`s.charger_type.lower() == req.preferred_charger.lower()`. -/
def chargerMatches (pc : String) (s : Station) : Bool :=
  strLower s.charger_type == strLower pc

/-- The `if req.preferred_charger:` guard plus filter comprehension.
Python truthiness: the filter runs only when `preferred_charger` is a
non-`None`, non-empty string. -/
def applyChargerFilter (pc? : Option String) (stations : List Station) :
    List Station :=
  match pc? with
  | some pc => if pc = "" then stations else stations.filter (chargerMatches pc)
  | none => stations

/-- The sort key comparison `key=lambda x: x["distance_km"]` used by
`sorted`. Python `sorted` is a stable sort; `List.insertionSort` with this
relation is also stable, and any two stable sorts under the same total
preorder key produce identical output. -/
def distRel (a b : Station × ℚ) : Prop :=
  a.2 ≤ b.2

instance : DecidableRel distRel := fun a b =>
  inferInstanceAs (Decidable (a.2 ≤ b.2))

instance : IsTotal (Station × ℚ) distRel :=
  ⟨fun a b => le_total a.2 b.2⟩

instance : IsTrans (Station × ℚ) distRel :=
  ⟨fun _ _ _ h h' => le_trans h h'⟩

/-- The candidate-selection block of `optimize_route` (lines 219-233):
compute distances, keep stations within `max_distance_km`; if none
qualify, sort the full distance-annotated set and truncate to 5,
otherwise sort the within-radius set and truncate to 5. -/
def selectCandidates (dist : Coord → Coord → ℚ) (origin : Coord)
    (stations : List Station) (maxD : ℚ) : List (Station × ℚ) :=
  let candidates := (stations.map fun s => (s, dist origin (stationCoord s))).filter
    fun c => decide (c.2 ≤ maxD)
  if candidates.isEmpty then
    let stations_with_dist := stations.map fun s => (s, dist origin (stationCoord s))
    (stations_with_dist.insertionSort distRel).take 5
  else
    (candidates.insertionSort distRel).take 5

/-- Python's `min(xs, key=...)` on a non-empty list: scans left to right
and keeps the first element attaining the minimum key. -/
def pyMin : Station × ℚ → List (Station × ℚ) → Station × ℚ
  | acc, [] => acc
  | acc, x :: xs => pyMin (if x.2 < acc.2 then x else acc) xs

/-- Python's `round(q, 2)` at rational precision (the claims under
verification are insensitive to the half-way tie mode, so Mathlib's
`round` is used for the model). -/
def round2 (q : ℚ) : ℚ :=
  ((round (q * 100) : ℤ) : ℚ) / 100

/-- Python's `round(q, 1)` at rational precision. -/
def round1 (q : ℚ) : ℚ :=
  ((round (q * 10) : ℤ) : ℚ) / 10

/-- The summarized candidate dict of the response comprehension
(lines 266-276). -/
def summarize (c : Station × ℚ) : CandidateOut :=
  { name := c.1.name
    latitude := c.1.latitude
    longitude := c.1.longitude
    distance_km := round2 c.2
    charger_type := c.1.charger_type
    power_kw := c.1.power_kw }

/-- Assembly of the successful `OptimizeResponse` from the resolved origin
and the non-empty candidate list (lines 247-277): best candidate by
`min` over distance, two-point polyline, ETA at 60 km/h, boundary
rounding. -/
def buildResponse (origin_coords : Coord) (c : Station × ℚ)
    (cs : List (Station × ℚ)) : OptimizeResponse :=
  let best := pyMin c cs
  let best_station := best.1
  let eta_minutes := best.2 / 60 * 60
  { origin := origin_coords
    best_station := best_station
    distance_km := round2 best.2
    eta_minutes := round1 eta_minutes
    route_polyline := [origin_coords, stationCoord best_station]
    candidates := (c :: cs).map summarize }

/-- The `optimize_route` handler of `src/main.py` (`POST /api/optimize`): geocode the
origin (404 on failure), fetch and charger-filter the stations (404 when
none remain), select candidates, pick the best, and assemble the
response. The station snapshot (`list_stations()`) and the distance
routine are parameters. -/
def optimize_route (dist : Coord → Coord → ℚ) (provider : String → GeoOutcome)
    (allStations : List Station) (req : OptimizeRequest) :
    Except OptimizeError OptimizeResponse :=
  match geocode_address provider req.origin with
  | none => .error .originNotFound
  | some origin_coords =>
    let stations := applyChargerFilter req.preferred_charger allStations
    if stations.isEmpty then
      .error .noStationsForFilter
    else
      match selectCandidates dist origin_coords stations req.max_distance_km with
      | [] => .error .emptyCandidates
      | c :: cs => .ok (buildResponse origin_coords c cs)

/-! ## GeoMath (spec §4.1) over `ℝ`

`haversine_km` of `src/main.py` delegates to `geopy.distance.geodesic`, an
external library whose code is not part of this repository. The distance
contract is therefore modelled from the spec over the real numbers. -/

/-- A coordinate over `ℝ`, for the GeoMath contract. -/
structure GeoCoord where
  lat : ℝ
  lon : ℝ

/-- The valid coordinate ranges of spec §3: latitude in [-90, 90],
longitude in [-180, 180]. -/
def validCoord (c : GeoCoord) : Prop :=
  -90 ≤ c.lat ∧ c.lat ≤ 90 ∧ -180 ≤ c.lon ∧ c.lon ≤ 180

/-- Degrees to radians. -/
noncomputable def toRad (deg : ℝ) : ℝ :=
  deg * Real.pi / 180

/-- The haversine argument: `sin²(Δφ/2) + cos φ₁ cos φ₂ sin²(Δλ/2)`. -/
noncomputable def havArg (a b : GeoCoord) : ℝ :=
  Real.sin ((toRad b.lat - toRad a.lat) / 2) ^ 2 +
    Real.cos (toRad a.lat) * Real.cos (toRad b.lat) *
      Real.sin ((toRad b.lon - toRad a.lon) / 2) ^ 2

/-- Modelled from the spec: the `haversine_km` contract of §4.1 ("must use
a great-circle (ellipsoidal or spherical) model"), as the spherical
haversine great-circle formula with mean Earth radius 6371 km. The
repository's `haversine_km` delegates to the external `geopy` geodesic
routine, which is not code of this repository. -/
noncomputable def haversine_km (a b : GeoCoord) : ℝ :=
  2 * 6371 * Real.arcsin (Real.sqrt (havArg a b))

/-! ## Concrete fixtures for witnesses and counterexamples -/

/-- A fixture station with charger type "CCS". -/
def stA : Station :=
  ⟨"A", 1, 1, "CCS", 100⟩

/-- A fixture station with charger type "CHAdeMO". -/
def stB : Station :=
  ⟨"B", 2, 2, "CHAdeMO", 50⟩

/-- A fixture distance function standing in for the floating-point
geodesic routine in concrete evaluations (the selection logic is proved
for every distance function). -/
def distSum : Coord → Coord → ℚ :=
  fun a b => (b.lat - a.lat) + (b.lon - a.lon)

/-- A fixture geocoding provider that resolves every query to (0, 0). -/
def providerZero : String → GeoOutcome :=
  fun _ => .found ⟨0, 0⟩

/-- A fixture geocoding provider that never finds a match. -/
def providerNone : String → GeoOutcome :=
  fun _ => .noMatch

/-- A fixture request with no charger preference. -/
def reqNone : OptimizeRequest :=
  ⟨"x", 50, none⟩

/-- The response `optimize_route distSum providerZero [stA] reqNone`
evaluates to (checked by `decide` in the witnesses). -/
def respA : OptimizeResponse :=
  ⟨⟨0, 0⟩, stA, 2, 2, [⟨0, 0⟩, ⟨1, 1⟩], [⟨"A", 1, 1, 2, "CCS", 100⟩]⟩

/-! ## Helper lemmas -/

/-- Rounding to the nearest integer on `ℚ` is monotone. -/
theorem round_rat_mono {x y : ℚ} (h : x ≤ y) : round x ≤ round y := by
  rw [round_eq, round_eq]
  exact Int.floor_mono (by linarith)

/-- Rounding to two decimals is monotone, so boundary rounding preserves
ascending order. -/
theorem round2_mono {x y : ℚ} (h : x ≤ y) : round2 x ≤ round2 y := by
  unfold round2
  have h1 : round (x * 100) ≤ round (y * 100) :=
    round_rat_mono (by linarith)
  have h2 : ((round (x * 100) : ℤ) : ℚ) ≤ ((round (y * 100) : ℤ) : ℚ) := by
    exact_mod_cast h1
  linarith

/-- Every selected candidate is a station of the input list paired with
its computed distance. -/
theorem mem_selectCandidates {dist origin stations maxD c}
    (h : c ∈ selectCandidates dist origin stations maxD) :
    c.1 ∈ stations ∧ c.2 = dist origin (stationCoord c.1) := by
  simp only [selectCandidates] at h
  split at h
  · have h1 := (List.take_sublist 5 _).mem h
    rw [List.mem_insertionSort] at h1
    obtain ⟨s, hs, rfl⟩ := List.mem_map.mp h1
    exact ⟨hs, rfl⟩
  · have h1 := (List.take_sublist 5 _).mem h
    rw [List.mem_insertionSort] at h1
    have h2 := List.mem_of_mem_filter h1
    obtain ⟨s, hs, rfl⟩ := List.mem_map.mp h2
    exact ⟨hs, rfl⟩

/-- The selection is sorted ascending by distance. -/
theorem selectCandidates_sorted (dist origin stations maxD) :
    (selectCandidates dist origin stations maxD).Pairwise distRel := by
  simp only [selectCandidates]
  split
  · exact (List.sorted_insertionSort distRel _).sublist (List.take_sublist 5 _)
  · exact (List.sorted_insertionSort distRel _).sublist (List.take_sublist 5 _)

/-- The selection has at most five entries. -/
theorem selectCandidates_length_le (dist origin stations maxD) :
    (selectCandidates dist origin stations maxD).length ≤ 5 := by
  simp only [selectCandidates]
  split
  · exact List.length_take_le 5 _
  · exact List.length_take_le 5 _

/-- The selection of a non-empty station list is non-empty. -/
theorem selectCandidates_ne_nil (dist origin maxD) {stations}
    (h : stations ≠ []) :
    selectCandidates dist origin stations maxD ≠ [] := by
  simp only [selectCandidates]
  split
  · intro hcon
    rw [List.take_eq_nil_iff] at hcon
    rcases hcon with h5 | hnil
    · norm_num at h5
    · have hp := List.perm_insertionSort distRel
        (stations.map fun s => (s, dist origin (stationCoord s)))
      rw [hnil] at hp
      have := hp.symm.eq_nil
      rw [List.map_eq_nil_iff] at this
      exact h this
  · next hne =>
    intro hcon
    rw [List.take_eq_nil_iff] at hcon
    rcases hcon with h5 | hnil
    · norm_num at h5
    · have hp := List.perm_insertionSort distRel
        ((stations.map fun s => (s, dist origin (stationCoord s))).filter
          fun c => decide (c.2 ≤ maxD))
      rw [hnil] at hp
      have := hp.symm.eq_nil
      rw [← List.isEmpty_iff] at this
      exact hne this

/-- Python's `min` returns an element of the list it scans. -/
theorem pyMin_mem (c : Station × ℚ) (cs : List (Station × ℚ)) :
    pyMin c cs ∈ c :: cs := by
  induction cs generalizing c with
  | nil => simp [pyMin]
  | cons x xs ih =>
    rw [pyMin]
    split
    · exact List.mem_cons_of_mem c (ih x)
    · rcases List.mem_cons.mp (ih c) with h3 | h3
      · simp [h3]
      · exact List.mem_cons_of_mem _ (List.mem_cons_of_mem _ h3)

/-- On a list sorted ascending by distance, Python's `min` by distance
returns the head. -/
theorem pyMin_of_sorted {c : Station × ℚ} {cs : List (Station × ℚ)}
    (h : (c :: cs).Pairwise distRel) : pyMin c cs = c := by
  induction cs with
  | nil => rfl
  | cons x xs ih =>
    rw [pyMin]
    have hcx : distRel c x := (List.pairwise_cons.mp h).1 x (by simp)
    rw [if_neg (not_lt.mpr hcx)]
    exact ih (h.sublist ((List.sublist_cons_self x xs).cons₂ c))

/-- Inversion of a successful `optimize_route` call: the origin geocoded,
the charger-filtered selection was non-empty, and the response is the
assembly of its head and tail. -/
theorem optimize_route_ok {dist provider allStations req resp}
    (h : optimize_route dist provider allStations req = .ok resp) :
    ∃ o c cs,
      geocode_address provider req.origin = some o ∧
      selectCandidates dist o (applyChargerFilter req.preferred_charger allStations)
          req.max_distance_km = c :: cs ∧
      resp = buildResponse o c cs := by
  unfold optimize_route at h
  cases hgeo : geocode_address provider req.origin with
  | none => rw [hgeo] at h; exact absurd h (by simp)
  | some o =>
    rw [hgeo] at h
    simp only [] at h
    split at h
    · exact absurd h (by simp)
    · split at h
      · exact absurd h (by simp)
      · next c cs hsel =>
        exact ⟨o, c, cs, rfl, hsel, (Except.ok.injEq _ _).mp h.symm⟩

theorem buildResponse_origin (o c cs) :
    (buildResponse o c cs).origin = o := rfl

theorem buildResponse_best_station (o c cs) :
    (buildResponse o c cs).best_station = (pyMin c cs).1 := rfl

theorem buildResponse_distance_km (o c cs) :
    (buildResponse o c cs).distance_km = round2 (pyMin c cs).2 := rfl

theorem buildResponse_eta_minutes (o c cs) :
    (buildResponse o c cs).eta_minutes = round1 ((pyMin c cs).2 / 60 * 60) := rfl

theorem buildResponse_route_polyline (o c cs) :
    (buildResponse o c cs).route_polyline =
      [o, stationCoord (pyMin c cs).1] := rfl

theorem buildResponse_candidates (o c cs) :
    (buildResponse o c cs).candidates = (c :: cs).map summarize := rfl

/-- Squared sine of a half-difference is symmetric in its endpoints. -/
theorem sin_half_sub_sq_comm (x y : ℝ) :
    Real.sin ((x - y) / 2) ^ 2 = Real.sin ((y - x) / 2) ^ 2 := by
  rw [show (x - y) / 2 = -((y - x) / 2) by ring, Real.sin_neg]
  ring

/-- The haversine argument is symmetric. -/
theorem havArg_comm (a b : GeoCoord) : havArg a b = havArg b a := by
  unfold havArg
  rw [sin_half_sub_sq_comm (toRad b.lat) (toRad a.lat),
    sin_half_sub_sq_comm (toRad b.lon) (toRad a.lon)]
  ring

/-- The great-circle distance is symmetric. -/
theorem haversine_symm (a b : GeoCoord) : haversine_km a b = haversine_km b a := by
  unfold haversine_km
  rw [havArg_comm]

/-- The great-circle distance is non-negative. -/
theorem haversine_nonneg (a b : GeoCoord) : 0 ≤ haversine_km a b := by
  unfold haversine_km
  have h1 : 0 ≤ Real.arcsin (Real.sqrt (havArg a b)) :=
    Real.arcsin_nonneg.mpr (Real.sqrt_nonneg _)
  positivity

/-- The great-circle distance from a coordinate to itself is zero. -/
theorem haversine_self (a : GeoCoord) : haversine_km a a = 0 := by
  unfold haversine_km havArg
  simp [sub_self, Real.sin_zero]

/-- Two distinct valid coordinates at the north pole are at great-circle
distance zero: they denote the same point on the sphere. -/
theorem haversine_pole : haversine_km ⟨90, 0⟩ ⟨90, 50⟩ = 0 := by
  unfold haversine_km havArg
  simp only []
  rw [show toRad 90 = Real.pi / 2 by unfold toRad; ring]
  simp [Real.cos_pi_div_two, sub_self, Real.sin_zero]

/-- Antipodal equatorial points are half an Earth circumference apart —
the distance is genuinely great-circle, not planar. -/
theorem haversine_antipodal : haversine_km ⟨0, 0⟩ ⟨0, 180⟩ = 6371 * Real.pi := by
  unfold haversine_km havArg
  simp only []
  rw [show toRad 180 = Real.pi by unfold toRad; field_simp]
  rw [show toRad 0 = 0 by unfold toRad; ring]
  simp [Real.sin_pi_div_two, Real.cos_zero, Real.sin_zero, Real.sqrt_one,
    Real.arcsin_one]
  ring

/-! ## Claim theorems -/

/-- C2: for every successful optimize call, the candidates list in the
result has length at most 5 and is sorted non-decreasing by
`distance_km`, in both the within-radius branch and the fallback
branch. -/
theorem C2_candidates_sorted_le5 (dist : Coord → Coord → ℚ)
    (provider : String → GeoOutcome) (allStations : List Station)
    (req : OptimizeRequest) (resp : OptimizeResponse)
    (h : optimize_route dist provider allStations req = .ok resp) :
    resp.candidates.length ≤ 5 ∧
    resp.candidates.Pairwise (fun a b => a.distance_km ≤ b.distance_km) := by
  obtain ⟨o, c, cs, hgeo, hsel, rfl⟩ := optimize_route_ok h
  rw [buildResponse_candidates]
  constructor
  · rw [List.length_map, ← hsel]
    exact selectCandidates_length_le dist o _ req.max_distance_km
  · rw [List.pairwise_map]
    have hs := selectCandidates_sorted dist o
      (applyChargerFilter req.preferred_charger allStations) req.max_distance_km
    rw [hsel] at hs
    exact hs.imp fun hab => round2_mono hab

/-- Witness for C2 at a concrete successful call. -/
theorem C2_witness :
    optimize_route distSum providerZero [stA] reqNone = .ok respA ∧
    (respA.candidates.length ≤ 5 ∧
      respA.candidates.Pairwise (fun a b => a.distance_km ≤ b.distance_km)) :=
  ⟨by decide, C2_candidates_sorted_le5 distSum providerZero [stA] reqNone respA
    (by decide)⟩

/-- C6: when the origin query cannot be geocoded — no match and provider
error are folded into one outcome — the call fails with the origin-not-
found condition; the result does not depend on the station snapshot or
the distance routine (both are universally quantified), so no derived
computation can influence it and no partial result is returned. -/
theorem C6_origin_not_found (dist : Coord → Coord → ℚ)
    (provider : String → GeoOutcome) (allStations : List Station)
    (req : OptimizeRequest)
    (h : provider req.origin = .noMatch ∨ provider req.origin = .providerError) :
    geocode_address provider req.origin = none ∧
    optimize_route dist provider allStations req = .error .originNotFound := by
  have hg : geocode_address provider req.origin = none := by
    unfold geocode_address
    rcases h with h | h <;> rw [h]
  exact ⟨hg, by unfold optimize_route; rw [hg]⟩

/-- Witness for C6 at a concrete unresolvable origin. -/
theorem C6_witness :
    (providerNone "Berlin" = .noMatch ∨ providerNone "Berlin" = .providerError) ∧
    (geocode_address providerNone "Berlin" = none ∧
      optimize_route distSum providerNone [stA] ⟨"Berlin", 50, none⟩ =
        .error .originNotFound) :=
  ⟨by decide, C6_origin_not_found distSum providerNone [stA] ⟨"Berlin", 50, none⟩
    (by decide)⟩

/-- C7: for every successful optimize call, the route polyline is exactly
the two-point sequence [resolved origin, best station's coordinate]. -/
theorem C7_route_polyline (dist : Coord → Coord → ℚ)
    (provider : String → GeoOutcome) (allStations : List Station)
    (req : OptimizeRequest) (resp : OptimizeResponse)
    (h : optimize_route dist provider allStations req = .ok resp) :
    ∃ o, geocode_address provider req.origin = some o ∧
      resp.origin = o ∧
      resp.route_polyline = [o, stationCoord resp.best_station] ∧
      resp.route_polyline.length = 2 := by
  obtain ⟨o, c, cs, hgeo, hsel, rfl⟩ := optimize_route_ok h
  exact ⟨o, hgeo, rfl, rfl, rfl⟩

/-- Witness for C7 at a concrete successful call. -/
theorem C7_witness :
    optimize_route distSum providerZero [stA] reqNone = .ok respA ∧
    ∃ o, geocode_address providerZero reqNone.origin = some o ∧
      respA.origin = o ∧
      respA.route_polyline = [o, stationCoord respA.best_station] ∧
      respA.route_polyline.length = 2 :=
  ⟨by decide, C7_route_polyline distSum providerZero [stA] reqNone respA
    (by decide)⟩

/-- C9 (implicit): every successful optimize call returns a non-empty
candidates list, and the `min`-over-empty-candidates crash (modelled by
`OptimizeError.emptyCandidates`) is unreachable: the empty-station error
is raised before selection, and a non-empty station list always yields at
least one candidate. -/
theorem C9_candidates_nonempty (dist : Coord → Coord → ℚ)
    (provider : String → GeoOutcome) (allStations : List Station)
    (req : OptimizeRequest) :
    optimize_route dist provider allStations req ≠ .error .emptyCandidates ∧
    ∀ resp, optimize_route dist provider allStations req = .ok resp →
      1 ≤ resp.candidates.length := by
  constructor
  · unfold optimize_route
    cases hgeo : geocode_address provider req.origin with
    | none => simp
    | some o =>
      simp only []
      split
      · simp
      · next hne =>
        have hnil : applyChargerFilter req.preferred_charger allStations ≠ [] := by
          intro hc
          rw [hc] at hne
          exact hne rfl
        obtain ⟨c, cs, hsel⟩ := List.exists_cons_of_ne_nil
          (selectCandidates_ne_nil dist o req.max_distance_km hnil)
        rw [hsel]
        simp
  · intro resp h
    obtain ⟨o, c, cs, hgeo, hsel, rfl⟩ := optimize_route_ok h
    rw [buildResponse_candidates]
    simp

/-- Witness for C9 at a concrete call. -/
theorem C9_witness :
    optimize_route distSum providerZero [stA] reqNone ≠ .error .emptyCandidates ∧
    1 ≤ respA.candidates.length :=
  ⟨(C9_candidates_nonempty distSum providerZero [stA] reqNone).1,
    (C9_candidates_nonempty distSum providerZero [stA] reqNone).2 respA (by decide)⟩

/-- C10 (implicit): with no charger preference and an empty station
snapshot, the call fails with the same `noStationsForFilter` error value
that the charger-type filter produces — the two cases are
indistinguishable to the caller. -/
theorem C10_empty_snapshot (dist : Coord → Coord → ℚ)
    (provider : String → GeoOutcome) (req : OptimizeRequest) (o : Coord)
    (hpc : req.preferred_charger = none)
    (hgeo : geocode_address provider req.origin = some o) :
    optimize_route dist provider [] req = .error .noStationsForFilter := by
  unfold optimize_route
  rw [hgeo]
  simp [applyChargerFilter, hpc]

/-- Witness for C10 at a concrete call. -/
theorem C10_witness :
    reqNone.preferred_charger = none ∧
    geocode_address providerZero reqNone.origin = some ⟨0, 0⟩ ∧
    optimize_route distSum providerZero [] reqNone = .error .noStationsForFilter :=
  ⟨by decide, by decide,
    C10_empty_snapshot distSum providerZero reqNone ⟨0, 0⟩ (by decide) (by decide)⟩

/-- C1: for every origin and non-empty station list, if some station's
distance is within `maxDistanceKm` then every selected candidate is
within `maxDistanceKm`; if no station is within, the radius is ignored
and the selection is the globally nearest `min 5 n` stations (it, plus a
remainder every selected distance is below, is a permutation of the full
computed set); in both cases the selection is sorted ascending with at
most 5 entries. -/
theorem C1_radius_policy_and_fallback (dist : Coord → Coord → ℚ) (origin : Coord)
    (stations : List Station) (maxD : ℚ) (_hne : stations ≠ []) :
    ((∃ s ∈ stations, dist origin (stationCoord s) ≤ maxD) →
      ∀ c ∈ selectCandidates dist origin stations maxD, c.2 ≤ maxD) ∧
    ((∀ s ∈ stations, maxD < dist origin (stationCoord s)) →
      (selectCandidates dist origin stations maxD).length = min 5 stations.length ∧
      ∃ rest, (selectCandidates dist origin stations maxD ++ rest).Perm
          (stations.map fun s => (s, dist origin (stationCoord s))) ∧
        ∀ c ∈ selectCandidates dist origin stations maxD, ∀ r ∈ rest, c.2 ≤ r.2) ∧
    (selectCandidates dist origin stations maxD).Pairwise distRel ∧
    (selectCandidates dist origin stations maxD).length ≤ 5 := by
  refine ⟨?_, ?_, selectCandidates_sorted dist origin stations maxD,
    selectCandidates_length_le dist origin stations maxD⟩
  · rintro ⟨s, hs, hle⟩ c hc
    have hmem : (s, dist origin (stationCoord s)) ∈
        (stations.map fun s => (s, dist origin (stationCoord s))).filter
          (fun c => decide (c.2 ≤ maxD)) :=
      List.mem_filter.mpr ⟨List.mem_map.mpr ⟨s, hs, rfl⟩, by simpa using hle⟩
    simp only [selectCandidates] at hc
    rw [if_neg ?_] at hc
    · have h1 := (List.take_sublist 5 _).mem hc
      rw [List.mem_insertionSort] at h1
      have h2 := (List.mem_filter.mp h1).2
      simpa using h2
    · intro hcon
      rw [List.isEmpty_iff] at hcon
      rw [hcon] at hmem
      exact absurd hmem (List.not_mem_nil _)
  · intro hall
    have hfilter : (stations.map fun s => (s, dist origin (stationCoord s))).filter
        (fun c => decide (c.2 ≤ maxD)) = [] := by
      rw [List.filter_eq_nil_iff]
      intro c hc
      obtain ⟨s, hs, rfl⟩ := List.mem_map.mp hc
      simpa using not_le.mpr (hall s hs)
    have hsel : selectCandidates dist origin stations maxD =
        ((stations.map fun s => (s, dist origin (stationCoord s))).insertionSort
          distRel).take 5 := by
      simp only [selectCandidates]
      rw [hfilter]
      rfl
    refine ⟨?_, ((stations.map fun s =>
        (s, dist origin (stationCoord s))).insertionSort distRel).drop 5, ?_, ?_⟩
    · rw [hsel, List.length_take, List.length_insertionSort, List.length_map]
    · rw [hsel, List.take_append_drop]
      exact List.perm_insertionSort distRel _
    · rw [hsel]
      intro c hc r hr
      have hp : ((stations.map fun s =>
          (s, dist origin (stationCoord s))).insertionSort distRel).Pairwise distRel :=
        List.sorted_insertionSort distRel _
      rw [show (stations.map fun s =>
            (s, dist origin (stationCoord s))).insertionSort distRel =
          ((stations.map fun s =>
            (s, dist origin (stationCoord s))).insertionSort distRel).take 5 ++
          ((stations.map fun s =>
            (s, dist origin (stationCoord s))).insertionSort distRel).drop 5
        from (List.take_append_drop 5 _).symm] at hp
      exact (List.pairwise_append.mp hp).2.2 c hc r hr

/-- Witness for C1 at a concrete selection. -/
theorem C1_witness :
    ([stA] ≠ []) ∧
    (((∃ s ∈ [stA], distSum ⟨0, 0⟩ (stationCoord s) ≤ 50) →
      ∀ c ∈ selectCandidates distSum ⟨0, 0⟩ [stA] 50, c.2 ≤ 50) ∧
    ((∀ s ∈ [stA], 50 < distSum ⟨0, 0⟩ (stationCoord s)) →
      (selectCandidates distSum ⟨0, 0⟩ [stA] 50).length = min 5 [stA].length ∧
      ∃ rest, (selectCandidates distSum ⟨0, 0⟩ [stA] 50 ++ rest).Perm
          ([stA].map fun s => (s, distSum ⟨0, 0⟩ (stationCoord s))) ∧
        ∀ c ∈ selectCandidates distSum ⟨0, 0⟩ [stA] 50, ∀ r ∈ rest, c.2 ≤ r.2) ∧
    (selectCandidates distSum ⟨0, 0⟩ [stA] 50).Pairwise distRel ∧
    (selectCandidates distSum ⟨0, 0⟩ [stA] 50).length ≤ 5) :=
  ⟨by decide, C1_radius_policy_and_fallback distSum ⟨0, 0⟩ [stA] 50 (by decide)⟩

/-- C3: for every successful optimize call, the best station is the
station of the first (lowest-distance) selected candidate, the result's
`distance_km` is that candidate's distance rounded to 2 decimals, and the
first response candidate summarizes it; ties in distance are resolved by
the stable ascending sort, which preserves input order for equal
distances. -/
theorem C3_best_is_first_candidate :
    (∀ (dist : Coord → Coord → ℚ) (provider : String → GeoOutcome)
        (allStations : List Station) (req : OptimizeRequest)
        (resp : OptimizeResponse),
      optimize_route dist provider allStations req = .ok resp →
      ∃ o c cs,
        geocode_address provider req.origin = some o ∧
        selectCandidates dist o (applyChargerFilter req.preferred_charger allStations)
          req.max_distance_km = c :: cs ∧
        resp.best_station = c.1 ∧
        resp.distance_km = round2 c.2 ∧
        resp.candidates.head? = some (summarize c)) ∧
    (∀ (l : List (Station × ℚ)) (a b : Station × ℚ), a.2 = b.2 →
      List.Sublist [a, b] l → List.Sublist [a, b] (l.insertionSort distRel)) := by
  constructor
  · intro dist provider allStations req resp h
    obtain ⟨o, c, cs, hgeo, hsel, rfl⟩ := optimize_route_ok h
    have hsorted := selectCandidates_sorted dist o
      (applyChargerFilter req.preferred_charger allStations) req.max_distance_km
    rw [hsel] at hsorted
    have hmin : pyMin c cs = c := pyMin_of_sorted hsorted
    refine ⟨o, c, cs, hgeo, hsel, ?_, ?_, ?_⟩
    · rw [buildResponse_best_station, hmin]
    · rw [buildResponse_distance_km, hmin]
    · rw [buildResponse_candidates]
      rfl
  · intro l a b hab hsub
    exact List.pair_sublist_insertionSort (show distRel a b from le_of_eq hab) hsub

/-- Witness for C3: a concrete successful call, and a concrete
equal-distance pair kept in input order by the sort. -/
theorem C3_witness :
    (optimize_route distSum providerZero [stA] reqNone = .ok respA ∧
      ∃ o c cs,
        geocode_address providerZero reqNone.origin = some o ∧
        selectCandidates distSum o
          (applyChargerFilter reqNone.preferred_charger [stA])
          reqNone.max_distance_km = c :: cs ∧
        respA.best_station = c.1 ∧
        respA.distance_km = round2 c.2 ∧
        respA.candidates.head? = some (summarize c)) ∧
    ((stA, (2 : ℚ)), (stB, (2 : ℚ))).1.2 = ((stA, (2 : ℚ)), (stB, (2 : ℚ))).2.2 ∧
    List.Sublist [(stA, (2 : ℚ)), (stB, (2 : ℚ))]
      (List.insertionSort distRel [(stA, (2 : ℚ)), (stB, (2 : ℚ))]) :=
  ⟨⟨by decide, C3_best_is_first_candidate.1 distSum providerZero [stA] reqNone respA
      (by decide)⟩,
    by decide,
    C3_best_is_first_candidate.2 [(stA, 2), (stB, 2)] (stA, 2) (stB, 2) (by decide)
      (List.Sublist.refl _)⟩

/-- C4: for every successful optimize call, `eta_minutes` is the best
distance divided by the fixed 60 km/h speed times 60 minutes, rounded to
1 decimal — and since the two 60s cancel exactly, it equals the unrounded
best distance rounded to 1 decimal. -/
theorem C4_eta_equals_distance (dist : Coord → Coord → ℚ)
    (provider : String → GeoOutcome) (allStations : List Station)
    (req : OptimizeRequest) (resp : OptimizeResponse)
    (h : optimize_route dist provider allStations req = .ok resp) :
    resp.eta_minutes =
      round1 (dist resp.origin (stationCoord resp.best_station) / 60 * 60) ∧
    resp.eta_minutes = round1 (dist resp.origin (stationCoord resp.best_station)) := by
  obtain ⟨o, c, cs, hgeo, hsel, rfl⟩ := optimize_route_ok h
  have hsorted := selectCandidates_sorted dist o
    (applyChargerFilter req.preferred_charger allStations) req.max_distance_km
  rw [hsel] at hsorted
  have hmin : pyMin c cs = c := pyMin_of_sorted hsorted
  have hc : c ∈ selectCandidates dist o
      (applyChargerFilter req.preferred_charger allStations) req.max_distance_km := by
    rw [hsel]
    exact List.mem_cons_self c cs
  have hdist := (mem_selectCandidates hc).2
  rw [buildResponse_eta_minutes, buildResponse_origin, buildResponse_best_station,
    hmin, ← hdist]
  refine ⟨rfl, ?_⟩
  rw [div_mul_cancel₀ _ (by norm_num : (60 : ℚ) ≠ 0)]

/-- Witness for C4 at a concrete successful call. -/
theorem C4_witness :
    optimize_route distSum providerZero [stA] reqNone = .ok respA ∧
    (respA.eta_minutes =
      round1 (distSum respA.origin (stationCoord respA.best_station) / 60 * 60) ∧
    respA.eta_minutes =
      round1 (distSum respA.origin (stationCoord respA.best_station))) :=
  ⟨by decide, C4_eta_equals_distance distSum providerZero [stA] reqNone respA
    (by decide)⟩

/-- C5 (amended): for every optimize request whose `preferredChargerType`
is set to a non-empty string, only case-insensitively matching stations
are used — an empty filter result fails with the no-stations error, the
best station matches, and every response candidate summarizes a matching
station. (As literally stated the claim is false: Python's truthiness
check skips the filter for the empty string, see `C5_counterexample`.) -/
theorem C5_charger_filter (dist : Coord → Coord → ℚ)
    (provider : String → GeoOutcome) (allStations : List Station)
    (req : OptimizeRequest) (pc : String) (o : Coord)
    (hpc : req.preferred_charger = some pc) (hnempty : pc ≠ "")
    (hgeo : geocode_address provider req.origin = some o) :
    (allStations.filter (chargerMatches pc) = [] →
      optimize_route dist provider allStations req = .error .noStationsForFilter) ∧
    (∀ resp, optimize_route dist provider allStations req = .ok resp →
      chargerMatches pc resp.best_station = true ∧
      ∀ cand ∈ resp.candidates,
        ∃ s ∈ allStations.filter (chargerMatches pc),
          cand = summarize (s, dist o (stationCoord s))) := by
  have hfilt : applyChargerFilter req.preferred_charger allStations =
      allStations.filter (chargerMatches pc) := by
    simp [applyChargerFilter, hpc, hnempty]
  constructor
  · intro hempty
    unfold optimize_route
    rw [hgeo]
    simp only [hfilt, hempty]
    rfl
  · intro resp h
    obtain ⟨o2, c, cs, hgeo2, hsel, rfl⟩ := optimize_route_ok h
    have ho : o2 = o := by
      rw [hgeo] at hgeo2
      exact (Option.some_inj.mp hgeo2).symm
    subst ho
    rw [hfilt] at hsel
    constructor
    · rw [buildResponse_best_station]
      have hm : pyMin c cs ∈ c :: cs := pyMin_mem c cs
      rw [← hsel] at hm
      have := (mem_selectCandidates hm).1
      exact (List.mem_filter.mp this).2
    · rw [buildResponse_candidates]
      intro cand hcand
      obtain ⟨p, hp, rfl⟩ := List.mem_map.mp hcand
      rw [← hsel] at hp
      obtain ⟨hp1, hp2⟩ := mem_selectCandidates hp
      exact ⟨p.1, hp1, by rw [← hp2]⟩

/-- Witness for C5 at a concrete request with a non-empty preference. -/
theorem C5_witness :
    ((⟨"x", 50, some "ccs"⟩ : OptimizeRequest).preferred_charger = some "ccs") ∧
    ("ccs" ≠ "") ∧
    (geocode_address providerZero "x" = some ⟨0, 0⟩) ∧
    (([stB, stA].filter (chargerMatches "ccs") = [] →
      optimize_route distSum providerZero [stB, stA] ⟨"x", 50, some "ccs"⟩ =
        .error .noStationsForFilter) ∧
    (∀ resp, optimize_route distSum providerZero [stB, stA] ⟨"x", 50, some "ccs"⟩ =
        .ok resp →
      chargerMatches "ccs" resp.best_station = true ∧
      ∀ cand ∈ resp.candidates,
        ∃ s ∈ [stB, stA].filter (chargerMatches "ccs"),
          cand = summarize (s, distSum ⟨0, 0⟩ (stationCoord s)))) :=
  ⟨by decide, by decide, by decide,
    C5_charger_filter distSum providerZero [stB, stA] ⟨"x", 50, some "ccs"⟩ "ccs"
      ⟨0, 0⟩ (by decide) (by decide) (by decide)⟩

/-- C5 counterexample: with `preferredChargerType` set to the empty
string, Python's truthiness check skips the filter entirely, so a station
that does not match the preference is still selected — contradicting
"only stations whose chargerType equals it case-insensitively are
retained ... no station outside the filter is ever used". -/
theorem C5_counterexample :
    ((⟨"x", 50, some ""⟩ : OptimizeRequest).preferred_charger = some "") ∧
    chargerMatches "" stA = false ∧
    (optimize_route distSum providerZero [stA] ⟨"x", 50, some ""⟩).toOption.map
      (fun r => r.best_station) = some stA := by
  refine ⟨rfl, by decide, by decide⟩

/-- C8 (amended): the modelled great-circle distance is symmetric,
non-negative, and zero on equal coordinates; it is genuinely
great-circle (antipodal equatorial points are `6371 * π` km apart, half
the Earth circumference), but zero does not imply coordinate equality —
see `C8_counterexample`. -/
theorem C8_distance_contract :
    (∀ a b : GeoCoord, haversine_km a b = haversine_km b a) ∧
    (∀ a b : GeoCoord, 0 ≤ haversine_km a b) ∧
    (∀ a : GeoCoord, haversine_km a a = 0) ∧
    haversine_km ⟨0, 0⟩ ⟨0, 180⟩ = 6371 * Real.pi :=
  ⟨haversine_symm, haversine_nonneg, haversine_self, haversine_antipodal⟩

/-- C8 counterexample: the two valid, distinct coordinates (90, 0) and
(90, 50) — both at the north pole — are at great-circle distance exactly
zero, refuting "zero if and only if a == b (within floating
tolerance)". -/
theorem C8_counterexample :
    validCoord ⟨90, 0⟩ ∧ validCoord ⟨90, 50⟩ ∧
    (⟨90, 0⟩ : GeoCoord) ≠ ⟨90, 50⟩ ∧
    haversine_km ⟨90, 0⟩ ⟨90, 50⟩ = 0 := by
  refine ⟨?_, ?_, ?_, haversine_pole⟩
  · constructor <;> norm_num [validCoord]
  · constructor <;> norm_num [validCoord]
  · intro h
    have := congrArg GeoCoord.lon h
    norm_num at this

end EVOpt
